import Mathlib

/-!
# KR Pricing — verification of the quoting frontend

Shallow embedding of the pricing/quoting code of `jaaronsanderson/kr-pricing`
(frontend sources under `frontend/src/`).  JavaScript numbers are modelled as
exact rationals (`ℚ`): every arithmetic operation the embedded code performs
(`*`, `+`, comparisons, `Math.ceil`) is exact at the inputs the theorems use,
so no floating-point rounding separates the model from the source.
-/

namespace KRPricing

/-! ## Constants and tables (frontend/src/types.ts) -/

/-- An inclusive numeric range `{ min, max }` as in `MaterialConstraints`. -/
structure ConstraintRange where
  min : ℚ
  max : ℚ
deriving DecidableEq, Repr

/-- `MaterialConstraints` (types.ts): per-material gauge/width/length ranges
and the weight factor. -/
structure MaterialConstraints where
  gauge : ConstraintRange
  width : ConstraintRange
  length : ConstraintRange
  weightFactor : ℚ
deriving DecidableEq, Repr

/-- The `Vinyl` entry of `MATERIAL_CONSTRAINTS`. -/
def vinylConstraints : MaterialConstraints :=
  { gauge := ⟨9/1000, 30/1000⟩
    width := ⟨20, 50⟩
    length := ⟨20, 70⟩
    weightFactor := 5/100 }

/-- The `APET` entry of `MATERIAL_CONSTRAINTS`. -/
def apetConstraints : MaterialConstraints :=
  { gauge := ⟨9/1000, 30/1000⟩
    width := ⟨20, 50⟩
    length := ⟨20, 70⟩
    weightFactor := 5/100 }

/-- The `Styrene` entry of `MATERIAL_CONSTRAINTS`. -/
def styreneConstraints : MaterialConstraints :=
  { gauge := ⟨9/1000, 250/1000⟩
    width := ⟨20, 65⟩
    length := ⟨20, 130⟩
    weightFactor := 4/100 }

/-- `MATERIAL_CONSTRAINTS` (types.ts): a record keyed by material name;
`none` models an absent key. -/
def MATERIAL_CONSTRAINTS (material : String) : Option MaterialConstraints :=
  if material = "Vinyl" then some vinylConstraints
  else if material = "APET" then some apetConstraints
  else if material = "Styrene" then some styreneConstraints
  else none

/-- `MINIMUM_WEIGHT_LBS = 2000` (types.ts). -/
def MINIMUM_WEIGHT_LBS : ℚ := 2000

/-- `MINIMUM_ORDER_VALUE = 150` (types.ts). -/
def MINIMUM_ORDER_VALUE : ℚ := 150

/-- `WIDE_SHEET_MINIMUM_VALUE = 550` (types.ts). -/
def WIDE_SHEET_MINIMUM_VALUE : ℚ := 550

/-- `VINYL_COLORS` (types.ts, custom-sheet table). -/
def VINYL_COLORS : List String := ["White", "Clear", "Stock Color"]

/-- `STYRENE_COLORS` (types.ts, custom-sheet table). -/
def STYRENE_COLORS : List String := ["White", "Translucent White", "Dead White"]

/-- `APET_COLORS` (types.ts, custom-sheet table). -/
def APET_COLORS : List String := ["Clear"]

/-- `VINYL_SURFACES` (types.ts, custom-sheet table). -/
def VINYL_SURFACES : List String :=
  ["Matte/Matte", "Gloss/Gloss", "Gloss/Matte", "Velvet One Side"]

/-- `STYRENE_SURFACES` (types.ts, custom-sheet table). -/
def STYRENE_SURFACES : List String := ["Matte/Matte", "Gloss/Matte"]

/-- `APET_SURFACES` (types.ts, custom-sheet table). -/
def APET_SURFACES : List String := ["Gloss/Gloss"]

/-! ## Line types (frontend/src/types.ts) -/

/-- `CustomLine` (types.ts): a custom sheet line as the editor holds it. -/
structure CustomLine where
  material : String
  color : String
  surface : String
  gauge : ℚ
  width : ℚ
  length : ℚ
  sheets : ℚ
  description : Option String := none
deriving DecidableEq, Repr

/-! ## Custom line editor (frontend/src/components — the current editor) -/

/-- `getColorOptions` (current editor): per-material color enumeration with a
fallback for unknown materials. -/
def getColorOptions (material : String) : List String :=
  if material = "Vinyl" then VINYL_COLORS
  else if material = "Styrene" then STYRENE_COLORS
  else if material = "APET" then APET_COLORS
  else ["White", "Clear"]

/-- `getSurfaceOptions` (current editor): per-material surface enumeration
with a fallback for unknown materials. -/
def getSurfaceOptions (material : String) : List String :=
  if material = "Vinyl" then VINYL_SURFACES
  else if material = "Styrene" then STYRENE_SURFACES
  else if material = "APET" then APET_SURFACES
  else VINYL_SURFACES

/-- `getConstraints` (current editor):
`MATERIAL_CONSTRAINTS[material] || MATERIAL_CONSTRAINTS.Vinyl`. -/
def getConstraints (material : String) : MaterialConstraints :=
  (MATERIAL_CONSTRAINTS material).getD vinylConstraints

/-- The one payload a validation message carries: which bound was violated
(`Min: ${...}` / `Max: ${...}` in the source). -/
inductive BoundMessage
  | belowMin (bound : ℚ)
  | aboveMax (bound : ℚ)
deriving DecidableEq, Repr

/-- `FieldValidation` (current editor). -/
structure FieldValidation where
  isValid : Bool
  message : Option BoundMessage := none
deriving DecidableEq, Repr

/-- `validateGauge` (current editor). -/
def validateGauge (value : ℚ) (material : String) : FieldValidation :=
  let constraints := getConstraints material
  if value < constraints.gauge.min then
    ⟨false, some (.belowMin constraints.gauge.min)⟩
  else if value > constraints.gauge.max then
    ⟨false, some (.aboveMax constraints.gauge.max)⟩
  else ⟨true, none⟩

/-- `validateWidth` (current editor). -/
def validateWidth (value : ℚ) (material : String) : FieldValidation :=
  let constraints := getConstraints material
  if value < constraints.width.min then
    ⟨false, some (.belowMin constraints.width.min)⟩
  else if value > constraints.width.max then
    ⟨false, some (.aboveMax constraints.width.max)⟩
  else ⟨true, none⟩

/-- `validateLength` (current editor). -/
def validateLength (value : ℚ) (material : String) : FieldValidation :=
  let constraints := getConstraints material
  if value < constraints.length.min then
    ⟨false, some (.belowMin constraints.length.min)⟩
  else if value > constraints.length.max then
    ⟨false, some (.aboveMax constraints.length.max)⟩
  else ⟨true, none⟩

/-- `hasErrors` (current editor): the disjunction of the three field
validations; no other field takes part. -/
def hasErrors (line : CustomLine) : Bool :=
  !(validateGauge line.gauge line.material).isValid
  || !(validateWidth line.width line.material).isValid
  || !(validateLength line.length line.material).isValid

/-- `weightInfo` (current editor): derived weight data shown for a custom
line.  `sheetsNeeded` is what the source computes: `Math.ceil(2010 /
weightPerSheet)` when `weightPerSheet > 0`, else `0`. -/
structure WeightInfo where
  weightPerSheet : ℚ
  totalWeight : ℚ
  meetsMinimum : Bool
  sheetsNeeded : ℤ
deriving DecidableEq, Repr

/-- `weightInfo` (current editor), computed from a line exactly as the
`useMemo` body does. -/
def weightInfo (line : CustomLine) : WeightInfo :=
  let constraints := getConstraints line.material
  let weightPerSheet := constraints.weightFactor * line.gauge * line.width * line.length
  let totalWeight := weightPerSheet * line.sheets
  let meetsMinimum := decide (totalWeight ≥ MINIMUM_WEIGHT_LBS)
  let sheetsNeeded : ℤ := if weightPerSheet > 0 then ⌈(2010 : ℚ) / weightPerSheet⌉ else 0
  ⟨weightPerSheet, totalWeight, meetsMinimum, sheetsNeeded⟩

/-- `handleMaterialChange` (current editor): switch a line's material,
defaulting color/surface to the first enumeration entries and clamping
gauge/width/length into the new material's ranges. -/
def handleMaterialChange (line : CustomLine) (newMaterial : String) : CustomLine :=
  let colors := getColorOptions newMaterial
  let surfaces := getSurfaceOptions newMaterial
  let newConstraints := getConstraints newMaterial
  let newGauge0 := if line.gauge < newConstraints.gauge.min then newConstraints.gauge.min else line.gauge
  let newGauge := if newGauge0 > newConstraints.gauge.max then newConstraints.gauge.max else newGauge0
  let newWidth0 := if line.width < newConstraints.width.min then newConstraints.width.min else line.width
  let newWidth := if newWidth0 > newConstraints.width.max then newConstraints.width.max else newWidth0
  let newLength0 := if line.length < newConstraints.length.min then newConstraints.length.min else line.length
  let newLength := if newLength0 > newConstraints.length.max then newConstraints.length.max else newLength0
  { line with
    material := newMaterial
    color := colors.headD ""
    surface := surfaces.headD ""
    gauge := newGauge
    width := newWidth
    length := newLength }

/-! ## The older custom line editor
(frontend/src/components/lines/CustomLineEditor.tsx, which imports the
earlier color/surface tables of types.ts) -/

namespace OldEditor

/-- `VINYL_COLORS` (earlier types.ts table). -/
def VINYL_COLORS : List String :=
  ["White", "Clear", "Black", "Red", "Blue", "Green", "Yellow"]

/-- `STYRENE_COLORS` (earlier types.ts table). -/
def STYRENE_COLORS : List String :=
  ["White", "Translucent White", "Dead White", "Clear"]

/-- `VINYL_SURFACES` (earlier types.ts table). -/
def VINYL_SURFACES : List String :=
  ["Gloss/Gloss", "Gloss/Matte", "Velvet/Gloss", "Velvet One Side"]

/-- `STYRENE_SURFACES` (earlier types.ts table). -/
def STYRENE_SURFACES : List String := ["Gloss/Matte", "Matte/Matte"]

/-- `STANDARD_SURFACES` (earlier types.ts table). -/
def STANDARD_SURFACES : List String := ["Gloss", "Matte"]

/-- `getColorOptions` (CustomLineEditor.tsx). -/
def getColorOptions (material : String) : List String :=
  if material = "Vinyl" then VINYL_COLORS
  else if material = "Styrene" then STYRENE_COLORS
  else ["White", "Clear"]

/-- `getSurfaceOptions` (CustomLineEditor.tsx). -/
def getSurfaceOptions (material : String) : List String :=
  if material = "Vinyl" then VINYL_SURFACES
  else if material = "Styrene" then STYRENE_SURFACES
  else STANDARD_SURFACES

/-- `handleMaterialChange` (CustomLineEditor.tsx): patches only material,
color and surface, the latter two to the first enumeration entries. -/
def handleMaterialChange (line : CustomLine) (newMaterial : String) : CustomLine :=
  let colors := getColorOptions newMaterial
  let surfaces := getSurfaceOptions newMaterial
  { line with
    material := newMaterial
    color := colors.headD ""
    surface := surfaces.headD "" }

end OldEditor

/-! ## Backend request shapes and the two Apps' submit paths -/

/-- `Number(v) || 0` applied to a value already held as a number. -/
def jsOr0 (x : ℚ) : ℚ := if x = 0 then 0 else x

/-- `BackendLineItemRequest` (types.ts): the tagged union sent to `POST /quote`. -/
inductive BackendLineItemRequest
  | stock (quantity : ℚ) (sku : String)
  | custom (quantity : ℚ) (material color surface : String)
      (gauge width length sheets : ℚ) (description : Option String)
  | ad_hoc (quantity : ℚ) (description : String)
      (weight_per_unit landed_cost_per_unit : ℚ)
deriving DecidableEq, Repr

/-- The `quantity` field every variant carries. -/
def BackendLineItemRequest.quantity : BackendLineItemRequest → ℚ
  | .stock q _ => q
  | .custom q _ _ _ _ _ _ _ _ => q
  | .ad_hoc q _ _ _ => q

/-- The `sheets` field, present on `custom` variants only. -/
def BackendLineItemRequest.sheetsField : BackendLineItemRequest → Option ℚ
  | .custom _ _ _ _ _ _ _ s _ => some s
  | _ => none

/-- The wire `type` tag of a backend line. -/
def BackendLineItemRequest.typeTag : BackendLineItemRequest → String
  | .stock _ _ => "stock"
  | .custom _ _ _ _ _ _ _ _ _ => "custom"
  | .ad_hoc _ _ _ _ => "ad_hoc"

/-- `QuoteRequest` (types.ts). -/
structure QuoteRequest where
  customer_id : String
  include_freight : Bool
  lines : List BackendLineItemRequest
deriving DecidableEq, Repr

/-- `QuoteLineInput` (types.ts, current version): the editor-side union the
old App maps from. -/
inductive QuoteLineInput
  | stock (itemSku : String) (quantity : ℚ)
  | custom (line : CustomLine)
  | ad_hoc (description : String) (weightPerUnit landedCostPerUnit quantity : ℚ)
deriving DecidableEq, Repr

namespace OldApp

/-- The per-line mapping inside `submitQuote` (frontend/src/old/App.tsx):
stock is passed through; a custom editor line becomes a backend `custom` line
whose `quantity` is `Number(line.sheets) || 0`; ad-hoc is passed through. -/
def toBackendLine : QuoteLineInput → BackendLineItemRequest
  | .stock sku qty => .stock (jsOr0 qty) sku
  | .custom l =>
      .custom (jsOr0 l.sheets) l.material l.color l.surface
        (jsOr0 l.gauge) (jsOr0 l.width) (jsOr0 l.length) (jsOr0 l.sheets)
        l.description
  | .ad_hoc d w c q => .ad_hoc (jsOr0 q) d (jsOr0 w) (jsOr0 c)

end OldApp

/-- A line of the active App (frontend/src/App.tsx): `addStockLine` builds the
stock variant; `addCustomLine` builds a line with kind `"custom"` but with
description/weightPerUnit/landedCostPerUnit/quantity fields (lines 199-208). -/
inductive ActiveAppLine
  | stock (itemSku : String) (quantity : ℚ)
  | custom (description : String) (weightPerUnit landedCostPerUnit quantity : ℚ)
  | ad_hoc (description : String) (weightPerUnit landedCostPerUnit quantity : ℚ)
deriving DecidableEq, Repr

namespace ActiveApp

/-- The per-line mapping inside the active App's `submitQuote`
(frontend/src/App.tsx lines 245-261): `kind === "stock"` maps to a backend
stock line; every other kind maps to a backend `ad_hoc` line. -/
def toBackendLine : ActiveAppLine → BackendLineItemRequest
  | .stock sku qty => .stock (jsOr0 qty) sku
  | .custom d w c q => .ad_hoc (jsOr0 q) d (jsOr0 w) (jsOr0 c)
  | .ad_hoc d w c q => .ad_hoc (jsOr0 q) d (jsOr0 w) (jsOr0 c)

/-- The active App's `submitQuote` guards and payload construction
(frontend/src/App.tsx lines 224-267): no account, no customer, or an empty
line list returns before any request is built; otherwise the payload is
assembled from the mapped lines. -/
def submitQuote (account : Bool) (customerId : String) (includeFreight : Bool)
    (lines : List ActiveAppLine) : Option QuoteRequest :=
  if !account then none
  else if customerId = "" then none
  else if lines.length = 0 then none
  else some
    { customer_id := customerId
      include_freight := includeFreight
      lines := lines.map toBackendLine }

end ActiveApp

/-- `canCalculate` (frontend/src/components/QuoteSummaryCard.tsx line 25):
`customerId && lines.length > 0 && !disabled`. -/
def canCalculate (customerId : String) (lines : List QuoteLineInput)
    (disabled : Bool) : Bool :=
  !(customerId == "") && decide (lines.length > 0) && !disabled

/-! ## Order-value minimum (modelled from the spec) -/

/-- The nominal sheet dimensions of one custom or stock line. -/
structure SheetDims where
  width : ℚ
  length : ℚ
deriving DecidableEq, Repr

/-- Modelled from the spec: the large-sheet test of
`backend/pricing/custom_rules.py` (`LARGE_SHEET_MIN_DIMENSION` /
`LARGE_SHEET_MAX_DIMENSION`) is not among the files under review; per the
spec a sheet is large iff `min(width, length) ≥ 40` and
`max(width, length) ≥ 72`. -/
def isLargeSheet (d : SheetDims) : Bool :=
  decide (40 ≤ min d.width d.length) && decide (72 ≤ max d.width d.length)

/-- Modelled from the spec: `apply_order_minimums` in
`backend/pricing/core.py` is not among the files under review; per the spec
the order-value floor is `WIDE_SHEET_MINIMUM_VALUE` ($550) iff at least one
custom or stock line's sheet is large, else `MINIMUM_ORDER_VALUE` ($150). -/
def orderValueFloor (dims : List SheetDims) : ℚ :=
  if dims.any isLargeSheet then WIDE_SHEET_MINIMUM_VALUE else MINIMUM_ORDER_VALUE

/-! ## Priced line results and the active App's renderer -/

/-- Modelled from the spec: the backend pricing engine
(`backend/pricing/core.py`) is not among the files under review; per the spec
a priced line result carries `extended_sell_price = sell_price_per_unit ×
quantity`. -/
structure LinePriceResult where
  quantity : ℚ
  sell_price_per_unit : ℚ
  extended_sell_price : ℚ
deriving DecidableEq, Repr

/-- Modelled from the spec: how the engine fills a `LinePriceResult`. -/
def mkLinePriceResult (quantity sellPricePerUnit : ℚ) : LinePriceResult :=
  { quantity := quantity
    sell_price_per_unit := sellPricePerUnit
    extended_sell_price := sellPricePerUnit * quantity }

/-- The fields of a response line the active App's `renderQuoteResult` reads
(frontend/src/App.tsx lines 555-594); `none` models an absent or non-numeric
field. -/
structure RenderedLine where
  extended_price : Option ℚ := none
  line_total : Option ℚ := none
  quantity : Option ℚ := none
  qty : Option ℚ := none
  sell_price_per_unit : Option ℚ := none
  price_per_unit : Option ℚ := none
  unit_price : Option ℚ := none
deriving DecidableEq, Repr

/-- `qty = line.quantity ?? line.qty ?? ""` of the renderer. -/
def renderQty (l : RenderedLine) : Option ℚ :=
  l.quantity.orElse fun _ => l.qty

/-- `sellPerUnit = line.sell_price_per_unit ?? line.price_per_unit ??
line.unit_price ?? ""` of the renderer. -/
def renderSellPerUnit (l : RenderedLine) : Option ℚ :=
  l.sell_price_per_unit.orElse fun _ =>
    l.price_per_unit.orElse fun _ => l.unit_price

/-- `extended = line.extended_price ?? line.line_total ?? (qty * sellPerUnit
when both are numbers)` of the renderer (App.tsx lines 588-594); `none` is
rendered as a dash. -/
def renderExtended (l : RenderedLine) : Option ℚ :=
  l.extended_price.orElse fun _ =>
    l.line_total.orElse fun _ =>
      match renderQty l, renderSellPerUnit l with
      | some q, some s => some (q * s)
      | _, _ => none

/-! ## Concrete inputs used by counterexamples and bug witnesses -/

/-- A Vinyl custom line with `weightPerSheet = 0.05 × 0.02 × 40 × 50 = 2` and
`totalWeight = 200`, well below the 2,000 lb floor. -/
def underRunLine : CustomLine :=
  { material := "Vinyl"
    color := "White"
    surface := "Matte/Matte"
    gauge := 2/100
    width := 40
    length := 50
    sheets := 100 }

/-- A Vinyl custom line whose gauge/width/length are all in range but whose
`sheets` is `0`. -/
def sheetsZeroLine : CustomLine :=
  { material := "Vinyl"
    color := "White"
    surface := "Matte/Matte"
    gauge := 15/1000
    width := 36
    length := 48
    sheets := 0 }

/-- A response line with no `extended_price` but a `line_total` of 5, a
quantity of 2 and a sell price of 3. -/
def lineTotalFallbackLine : RenderedLine :=
  { extended_price := none
    line_total := some 5
    quantity := some 2
    sell_price_per_unit := some 3 }

end KRPricing

namespace KRPricing

/-! ## Theorems -/

/-- C3: for every custom line, `weightPerSheet` is exactly
`weightFactor(material) × gauge × width × length` and `totalWeight` is exactly
`weightPerSheet × sheets`; over `ℚ` no rounding takes part. -/
theorem C3_weight_arithmetic_exact (line : CustomLine) :
    (weightInfo line).weightPerSheet
        = (getConstraints line.material).weightFactor
            * line.gauge * line.width * line.length
      ∧ (weightInfo line).totalWeight
        = (weightInfo line).weightPerSheet * line.sheets := by
  exact ⟨rfl, rfl⟩

/-- C5: a custom editor line placed into a quote request by the old App's
`submitQuote` yields a backend `custom` line whose `quantity` equals its
`sheets` field. -/
theorem C5_custom_quantity_equals_sheets (l : CustomLine) :
    (OldApp.toBackendLine (.custom l)).sheetsField
        = some ((OldApp.toBackendLine (.custom l)).quantity)
      ∧ (OldApp.toBackendLine (.custom l)).typeTag = "custom" := by
  exact ⟨rfl, rfl⟩

/-- C8: a submission attempt with zero lines never produces a request (the
active App's `submitQuote` returns before building a payload), and the
summary card's Calculate action is unavailable with no lines. -/
theorem C8_empty_line_list_rejected (account : Bool) (customerId : String)
    (includeFreight : Bool) (disabled : Bool) :
    ActiveApp.submitQuote account customerId includeFreight [] = none
      ∧ canCalculate customerId [] disabled = false := by
  constructor
  · unfold ActiveApp.submitQuote
    split_ifs <;> simp_all
  · simp [canCalculate]

/-- C10: every backend line the active App's `submitQuote` builds has type
`"stock"` or `"ad_hoc"`, never `"custom"`: non-stock editor lines are mapped
to `ad_hoc` backend lines. -/
theorem C10_no_custom_backend_lines (account : Bool) (customerId : String)
    (includeFreight : Bool) (lines : List ActiveAppLine) :
    ((lines.map ActiveApp.toBackendLine).all fun l =>
        (l.typeTag == "stock" || l.typeTag == "ad_hoc")
          && !(l.typeTag == "custom")) = true
      ∧ ((ActiveApp.submitQuote account customerId includeFreight lines).map
          fun req => req.lines.all fun l => !(l.typeTag == "custom")).getD true
        = true := by
  have hall : (lines.map ActiveApp.toBackendLine).all (fun l =>
      (l.typeTag == "stock" || l.typeTag == "ad_hoc")
        && !(l.typeTag == "custom")) = true := by
    rw [List.all_eq_true]
    intro l hl
    rw [List.mem_map] at hl
    obtain ⟨a, -, rfl⟩ := hl
    cases a <;> simp [ActiveApp.toBackendLine, BackendLineItemRequest.typeTag]
  refine ⟨hall, ?_⟩
  have hall2 : (lines.map ActiveApp.toBackendLine).all
      (fun l => !(l.typeTag == "custom")) = true := by
    rw [List.all_eq_true]
    intro l hl
    rw [List.mem_map] at hl
    obtain ⟨a, -, rfl⟩ := hl
    cases a <;> simp [ActiveApp.toBackendLine, BackendLineItemRequest.typeTag]
  unfold ActiveApp.submitQuote
  split_ifs <;> simp [hall2]

/-- C2 (bug evidence): at `underRunLine` the editor's `weightInfo` computes a
2 lb sheet, reports the line under-run (200 lb < 2,000 lb floor), and shows
`sheetsNeeded = ⌈2010 / 2⌉ = 1005`, while `⌈MINIMUM_WEIGHT_LBS / 2⌉ = 1000`:
the hard-coded `2010` contradicts the `MINIMUM_WEIGHT_LBS = 2000` constant the
same computation and message use. -/
theorem C2_sheets_needed_uses_2010 :
    (weightInfo underRunLine).weightPerSheet = 2
      ∧ (weightInfo underRunLine).totalWeight = 200
      ∧ (weightInfo underRunLine).meetsMinimum = false
      ∧ (weightInfo underRunLine).sheetsNeeded = 1005
      ∧ ⌈MINIMUM_WEIGHT_LBS / (weightInfo underRunLine).weightPerSheet⌉ = (1000 : ℤ)
      ∧ (weightInfo underRunLine).sheetsNeeded
          ≠ ⌈MINIMUM_WEIGHT_LBS / (weightInfo underRunLine).weightPerSheet⌉ := by
  have hwps : (weightInfo underRunLine).weightPerSheet = 2 := by
    simp [weightInfo, underRunLine, getConstraints, MATERIAL_CONSTRAINTS, vinylConstraints]
    norm_num
  have htot : (weightInfo underRunLine).totalWeight = 200 := by
    simp [weightInfo, underRunLine, getConstraints, MATERIAL_CONSTRAINTS, vinylConstraints]
    norm_num
  have hmeets : (weightInfo underRunLine).meetsMinimum = false := by
    simp [weightInfo, underRunLine, getConstraints, MATERIAL_CONSTRAINTS, vinylConstraints,
      MINIMUM_WEIGHT_LBS]
    norm_num
  have hneed : (weightInfo underRunLine).sheetsNeeded = 1005 := by
    simp [weightInfo, underRunLine, getConstraints, MATERIAL_CONSTRAINTS, vinylConstraints]
    norm_num
  have hceil : ⌈MINIMUM_WEIGHT_LBS / (weightInfo underRunLine).weightPerSheet⌉ = (1000 : ℤ) := by
    rw [hwps]
    norm_num [MINIMUM_WEIGHT_LBS]
  refine ⟨hwps, htot, hmeets, hneed, hceil, ?_⟩
  rw [hneed, hceil]
  norm_num

/-- C7 (counterexample): a line whose `extended_price` is absent but whose
`line_total` is 5 shows 5, not `quantity × sell price per unit = 6`. -/
theorem C7_line_total_shown_instead :
    lineTotalFallbackLine.extended_price = none
      ∧ renderQty lineTotalFallbackLine = some 2
      ∧ renderSellPerUnit lineTotalFallbackLine = some 3
      ∧ renderExtended lineTotalFallbackLine = some 5
      ∧ renderExtended lineTotalFallbackLine ≠ some (2 * 3) := by
  refine ⟨rfl, rfl, rfl, rfl, ?_⟩
  simp [renderExtended, lineTotalFallbackLine, Option.orElse]
  norm_num

/-- C7 (amended): a priced line result built by the engine (modelled from the
spec) carries `extended_sell_price = sell_price_per_unit × quantity`; in the
active App's renderer the shown amount falls back to `line_total` first, and
only when both `extended_price` and `line_total` are absent is it computed as
`quantity × sell price per unit` (absent operands render as a dash). -/
theorem C7_extended_price_policy (q s : ℚ) (l : RenderedLine) :
    (mkLinePriceResult q s).extended_sell_price
        = (mkLinePriceResult q s).sell_price_per_unit * (mkLinePriceResult q s).quantity
      ∧ (∀ t, l.extended_price = none → l.line_total = some t → renderExtended l = some t)
      ∧ (∀ qv sv, l.extended_price = none → l.line_total = none →
          renderQty l = some qv → renderSellPerUnit l = some sv →
          renderExtended l = some (qv * sv))
      ∧ (l.extended_price = none → l.line_total = none → renderQty l = none →
          renderExtended l = none) := by
  refine ⟨rfl, ?_, ?_, ?_⟩
  · intro t h1 h2
    simp [renderExtended, h1, h2, Option.orElse]
  · intro qv sv h1 h2 hq hs
    simp [renderExtended, h1, h2, hq, hs, Option.orElse]
  · intro h1 h2 hq
    simp [renderExtended, h1, h2, hq, Option.orElse]

/-- The large-sheet test unfolded to its two dimension bounds. -/
lemma isLargeSheet_eq_true (d : SheetDims) :
    isLargeSheet d = true ↔ 40 ≤ min d.width d.length ∧ 72 ≤ max d.width d.length := by
  simp [isLargeSheet]

/-- C1: the order-value floor is $550 iff some custom or stock line's sheet
has `min(width, length) ≥ 40` and `max(width, length) ≥ 72`, else $150; the
spec's worked table (48×48 and 47×47 → $150, 40×72 and 48×96 → $550) holds. -/
theorem C1_order_value_floor (dims : List SheetDims) :
    (orderValueFloor dims = 550 ↔
        ∃ d ∈ dims, 40 ≤ min d.width d.length ∧ 72 ≤ max d.width d.length)
      ∧ (orderValueFloor dims = 150 ↔
        ¬ ∃ d ∈ dims, 40 ≤ min d.width d.length ∧ 72 ≤ max d.width d.length)
      ∧ orderValueFloor [⟨48, 48⟩] = 150
      ∧ orderValueFloor [⟨47, 47⟩] = 150
      ∧ orderValueFloor [⟨40, 72⟩] = 550
      ∧ orderValueFloor [⟨48, 96⟩] = 550 := by
  have hkey : dims.any isLargeSheet = true ↔
      ∃ d ∈ dims, 40 ≤ min d.width d.length ∧ 72 ≤ max d.width d.length := by
    rw [List.any_eq_true]
    constructor
    · rintro ⟨d, hd, h⟩
      exact ⟨d, hd, (isLargeSheet_eq_true d).mp h⟩
    · rintro ⟨d, hd, h⟩
      exact ⟨d, hd, (isLargeSheet_eq_true d).mpr h⟩
  refine ⟨?_, ?_, ?_, ?_, ?_, ?_⟩
  · rw [← hkey]
    unfold orderValueFloor
    split_ifs with h <;>
      simp [h, WIDE_SHEET_MINIMUM_VALUE, MINIMUM_ORDER_VALUE]
  · rw [← hkey]
    unfold orderValueFloor
    split_ifs with h <;>
      simp [h, WIDE_SHEET_MINIMUM_VALUE, MINIMUM_ORDER_VALUE]
  · simp [orderValueFloor, isLargeSheet, min_def, max_def,
      WIDE_SHEET_MINIMUM_VALUE, MINIMUM_ORDER_VALUE]
    norm_num
  · simp [orderValueFloor, isLargeSheet, min_def, max_def,
      WIDE_SHEET_MINIMUM_VALUE, MINIMUM_ORDER_VALUE]
    norm_num
  · simp [orderValueFloor, isLargeSheet, min_def, max_def,
      WIDE_SHEET_MINIMUM_VALUE, MINIMUM_ORDER_VALUE]
    norm_num
  · simp [orderValueFloor, isLargeSheet, min_def, max_def,
      WIDE_SHEET_MINIMUM_VALUE, MINIMUM_ORDER_VALUE]
    norm_num

/-- C6: the constraint lookup falls back to the Vinyl entry on an unknown
material, and after a material change (in both editors) the line's color and
surface are the first elements of that material's enumerations — which are
never empty, unknown materials included. -/
theorem C6_lookup_fallback_and_first_defaults (material : String) (line : CustomLine) :
    (MATERIAL_CONSTRAINTS material = none → getConstraints material = vinylConstraints)
      ∧ (getColorOptions material).head?
        = some ((handleMaterialChange line material).color)
      ∧ (getSurfaceOptions material).head?
        = some ((handleMaterialChange line material).surface)
      ∧ (OldEditor.getColorOptions material).head?
        = some ((OldEditor.handleMaterialChange line material).color)
      ∧ (OldEditor.getSurfaceOptions material).head?
        = some ((OldEditor.handleMaterialChange line material).surface) := by
  refine ⟨?_, ?_, ?_, ?_, ?_⟩
  · intro h
    simp [getConstraints, h]
  · simp only [handleMaterialChange]
    unfold getColorOptions
    split_ifs <;> simp [VINYL_COLORS, STYRENE_COLORS, APET_COLORS]
  · simp only [handleMaterialChange]
    unfold getSurfaceOptions
    split_ifs <;> simp [VINYL_SURFACES, STYRENE_SURFACES, APET_SURFACES]
  · simp only [OldEditor.handleMaterialChange]
    unfold OldEditor.getColorOptions
    split_ifs <;>
      simp [OldEditor.VINYL_COLORS, OldEditor.STYRENE_COLORS]
  · simp only [OldEditor.handleMaterialChange]
    unfold OldEditor.getSurfaceOptions
    split_ifs <;>
      simp [OldEditor.VINYL_SURFACES, OldEditor.STYRENE_SURFACES,
        OldEditor.STANDARD_SURFACES]

/-- The double-`if` clamp of `handleMaterialChange` stays inside `[mn, mx]`
when `mn ≤ mx`. -/
lemma clamp_mem (mn mx v : ℚ) (h : mn ≤ mx) :
    mn ≤ (if (if v < mn then mn else v) > mx then mx else (if v < mn then mn else v))
      ∧ (if (if v < mn then mn else v) > mx then mx else (if v < mn then mn else v))
        ≤ mx := by
  split_ifs <;> constructor <;> linarith

/-- A value below the minimum clamps to the minimum (needs `mn ≤ mx`). -/
lemma clamp_of_lt (mn mx v : ℚ) (h : mn ≤ mx) (hv : v < mn) :
    (if (if v < mn then mn else v) > mx then mx else (if v < mn then mn else v))
      = mn := by
  split_ifs <;> first | rfl | linarith

/-- A value above the maximum clamps to the maximum. -/
lemma clamp_of_gt (mn mx v : ℚ) (hv : mx < v) :
    (if (if v < mn then mn else v) > mx then mx else (if v < mn then mn else v))
      = mx := by
  split_ifs <;> first | rfl | linarith

/-- Every entry `getConstraints` can return has `min ≤ max` in all three
ranges. -/
lemma getConstraints_ranges_ordered (m : String) :
    (getConstraints m).gauge.min ≤ (getConstraints m).gauge.max
      ∧ (getConstraints m).width.min ≤ (getConstraints m).width.max
      ∧ (getConstraints m).length.min ≤ (getConstraints m).length.max := by
  unfold getConstraints MATERIAL_CONSTRAINTS
  split_ifs <;>
    norm_num [vinylConstraints, apetConstraints, styreneConstraints]

/-- C9: after `handleMaterialChange`, gauge, width and length each lie within
the new material's bounds; a value below a new minimum is raised to it and a
value above a new maximum is lowered to it. -/
theorem C9_material_change_clamps (line : CustomLine) (newMaterial : String) :
    ((getConstraints newMaterial).gauge.min
          ≤ (handleMaterialChange line newMaterial).gauge
      ∧ (handleMaterialChange line newMaterial).gauge
          ≤ (getConstraints newMaterial).gauge.max)
      ∧ ((getConstraints newMaterial).width.min
          ≤ (handleMaterialChange line newMaterial).width
        ∧ (handleMaterialChange line newMaterial).width
          ≤ (getConstraints newMaterial).width.max)
      ∧ ((getConstraints newMaterial).length.min
          ≤ (handleMaterialChange line newMaterial).length
        ∧ (handleMaterialChange line newMaterial).length
          ≤ (getConstraints newMaterial).length.max)
      ∧ (line.gauge < (getConstraints newMaterial).gauge.min →
          (handleMaterialChange line newMaterial).gauge
            = (getConstraints newMaterial).gauge.min)
      ∧ ((getConstraints newMaterial).gauge.max < line.gauge →
          (handleMaterialChange line newMaterial).gauge
            = (getConstraints newMaterial).gauge.max)
      ∧ (line.width < (getConstraints newMaterial).width.min →
          (handleMaterialChange line newMaterial).width
            = (getConstraints newMaterial).width.min)
      ∧ ((getConstraints newMaterial).width.max < line.width →
          (handleMaterialChange line newMaterial).width
            = (getConstraints newMaterial).width.max)
      ∧ (line.length < (getConstraints newMaterial).length.min →
          (handleMaterialChange line newMaterial).length
            = (getConstraints newMaterial).length.min)
      ∧ ((getConstraints newMaterial).length.max < line.length →
          (handleMaterialChange line newMaterial).length
            = (getConstraints newMaterial).length.max) := by
  obtain ⟨hg, hw, hl⟩ := getConstraints_ranges_ordered newMaterial
  simp only [handleMaterialChange]
  refine ⟨?_, ?_, ?_, ?_, ?_, ?_, ?_, ?_, ?_⟩
  · exact clamp_mem _ _ _ hg
  · exact clamp_mem _ _ _ hw
  · exact clamp_mem _ _ _ hl
  · exact fun hv => clamp_of_lt _ _ _ hg hv
  · exact fun hv => clamp_of_gt _ _ _ hv
  · exact fun hv => clamp_of_lt _ _ _ hw hv
  · exact fun hv => clamp_of_gt _ _ _ hv
  · exact fun hv => clamp_of_lt _ _ _ hl hv
  · exact fun hv => clamp_of_gt _ _ _ hv

/-- `validateGauge` accepts exactly the inclusive range. -/
lemma validateGauge_isValid_iff (v : ℚ) (m : String) :
    (validateGauge v m).isValid = true ↔
      (getConstraints m).gauge.min ≤ v ∧ v ≤ (getConstraints m).gauge.max := by
  unfold validateGauge
  dsimp only
  split_ifs with h1 h2
  · constructor
    · intro h
      simp at h
    · rintro ⟨a, -⟩
      exfalso
      linarith
  · constructor
    · intro h
      simp at h
    · rintro ⟨-, b⟩
      exfalso
      linarith
  · constructor
    · intro _
      exact ⟨le_of_not_lt h1, le_of_not_lt h2⟩
    · intro _
      rfl

/-- `validateWidth` accepts exactly the inclusive range. -/
lemma validateWidth_isValid_iff (v : ℚ) (m : String) :
    (validateWidth v m).isValid = true ↔
      (getConstraints m).width.min ≤ v ∧ v ≤ (getConstraints m).width.max := by
  unfold validateWidth
  dsimp only
  split_ifs with h1 h2
  · constructor
    · intro h
      simp at h
    · rintro ⟨a, -⟩
      exfalso
      linarith
  · constructor
    · intro h
      simp at h
    · rintro ⟨-, b⟩
      exfalso
      linarith
  · constructor
    · intro _
      exact ⟨le_of_not_lt h1, le_of_not_lt h2⟩
    · intro _
      rfl

/-- `validateLength` accepts exactly the inclusive range. -/
lemma validateLength_isValid_iff (v : ℚ) (m : String) :
    (validateLength v m).isValid = true ↔
      (getConstraints m).length.min ≤ v ∧ v ≤ (getConstraints m).length.max := by
  unfold validateLength
  dsimp only
  split_ifs with h1 h2
  · constructor
    · intro h
      simp at h
    · rintro ⟨a, -⟩
      exfalso
      linarith
  · constructor
    · intro h
      simp at h
    · rintro ⟨-, b⟩
      exfalso
      linarith
  · constructor
    · intro _
      exact ⟨le_of_not_lt h1, le_of_not_lt h2⟩
    · intro _
      rfl

/-- C4 (amended): the editor's validation fails exactly when gauge, width or
length lies outside the selected material's inclusive range — values equal to
a bound are accepted, and a failing field's message carries the violated
bound.  `sheets` takes no part in `hasErrors`. -/
theorem C4_range_validation_no_sheets (line : CustomLine) (v : ℚ) (m : String) :
    (hasErrors line = false ↔
        ((getConstraints line.material).gauge.min ≤ line.gauge
          ∧ line.gauge ≤ (getConstraints line.material).gauge.max
          ∧ (getConstraints line.material).width.min ≤ line.width
          ∧ line.width ≤ (getConstraints line.material).width.max
          ∧ (getConstraints line.material).length.min ≤ line.length
          ∧ line.length ≤ (getConstraints line.material).length.max))
      ∧ (v < (getConstraints m).gauge.min →
          validateGauge v m
            = ⟨false, some (.belowMin (getConstraints m).gauge.min)⟩)
      ∧ ((getConstraints m).gauge.max < v →
          validateGauge v m
            = ⟨false, some (.aboveMax (getConstraints m).gauge.max)⟩)
      ∧ (v < (getConstraints m).width.min →
          validateWidth v m
            = ⟨false, some (.belowMin (getConstraints m).width.min)⟩)
      ∧ ((getConstraints m).width.max < v →
          validateWidth v m
            = ⟨false, some (.aboveMax (getConstraints m).width.max)⟩)
      ∧ (v < (getConstraints m).length.min →
          validateLength v m
            = ⟨false, some (.belowMin (getConstraints m).length.min)⟩)
      ∧ ((getConstraints m).length.max < v →
          validateLength v m
            = ⟨false, some (.aboveMax (getConstraints m).length.max)⟩) := by
  obtain ⟨hgo, hwo, hlo⟩ := getConstraints_ranges_ordered m
  refine ⟨?_, ?_, ?_, ?_, ?_, ?_, ?_⟩
  · rw [show (hasErrors line = false) ↔
        ((validateGauge line.gauge line.material).isValid = true
          ∧ (validateWidth line.width line.material).isValid = true
          ∧ (validateLength line.length line.material).isValid = true) from by
      unfold hasErrors
      cases hg : (validateGauge line.gauge line.material).isValid <;>
        cases hw : (validateWidth line.width line.material).isValid <;>
          cases hl : (validateLength line.length line.material).isValid <;> simp]
    rw [validateGauge_isValid_iff, validateWidth_isValid_iff, validateLength_isValid_iff]
    tauto
  · intro hv
    unfold validateGauge
    dsimp only
    split_ifs <;> first | rfl | linarith
  · intro hv
    unfold validateGauge
    dsimp only
    split_ifs <;> first | rfl | linarith
  · intro hv
    unfold validateWidth
    dsimp only
    split_ifs <;> first | rfl | linarith
  · intro hv
    unfold validateWidth
    dsimp only
    split_ifs <;> first | rfl | linarith
  · intro hv
    unfold validateLength
    dsimp only
    split_ifs <;> first | rfl | linarith
  · intro hv
    unfold validateLength
    dsimp only
    split_ifs <;> first | rfl | linarith

/-- C4 (counterexample): a line whose gauge, width and length are all in
range but whose `sheets` is `0 < 1` still passes validation — `hasErrors`
does not check `sheets`, so the claim's "or sheets < 1" disjunct is false on
the code. -/
theorem C4_sheets_zero_passes_validation :
    hasErrors sheetsZeroLine = false ∧ sheetsZeroLine.sheets < 1 := by
  constructor
  · simp [hasErrors, validateGauge, validateWidth, validateLength, sheetsZeroLine,
      getConstraints, MATERIAL_CONSTRAINTS, vinylConstraints]
    norm_num
  · norm_num [sheetsZeroLine]

end KRPricing
